import Mathlib

/-!
Shallow embedding of the `LatticeParametersSGCCG` environment from
`gflownet/envs/crystals/lattice_parameters.py`, together with proofs of the
specification claims about it.

Numeric values (Python floats / numpy arrays) are modelled as real numbers.
Python exceptions (`ValueError`, `TypeError`, `IndexError`) are modelled by
`Option`/`Except` results: `none` / `.error` means the Python code raises.
-/

namespace LatticeParamsSGCCG

/-- Modelled from the spec: the seven enumerated lattice-system names
(`gflownet/utils/crystals/constants.py` is not part of the sources at hand;
the spec enumerates the systems as triclinic, monoclinic, orthorhombic,
tetragonal, hexagonal, rhombohedral, cubic). -/
def TRICLINIC : String := "triclinic"

/-- Modelled from the spec: the monoclinic lattice-system name. -/
def MONOCLINIC : String := "monoclinic"

/-- Modelled from the spec: the orthorhombic lattice-system name. -/
def ORTHORHOMBIC : String := "orthorhombic"

/-- Modelled from the spec: the tetragonal lattice-system name. -/
def TETRAGONAL : String := "tetragonal"

/-- Modelled from the spec: the hexagonal lattice-system name. -/
def HEXAGONAL : String := "hexagonal"

/-- Modelled from the spec: the rhombohedral lattice-system name. -/
def RHOMBOHEDRAL : String := "rhombohedral"

/-- Modelled from the spec: the cubic lattice-system name. -/
def CUBIC : String := "cubic"

/-- The five attributes set by `LatticeParametersSGCCG._setup_constraints`.
Entries of the tied/fixed lists mirror the Python lists of `None`-or-value. -/
structure ConstraintTable where
  ignored_dims : List Bool
  projection_tied_values : List (Option Nat)
  projection_fixed_values : List (Option ℝ)
  lattice_params_tied_values : List (Option Nat)
  lattice_params_fixed_values : List (Option ℝ)

/-- Constraint table of the `TRICLINIC` branch of `_setup_constraints`. -/
def triclinicTable : ConstraintTable where
  ignored_dims := [false, false, false, false, false, false]
  projection_tied_values := [none, none, none, none, none, none]
  projection_fixed_values := [none, none, none, none, none, none]
  lattice_params_tied_values := [none, none, none, none, none, none]
  lattice_params_fixed_values := [none, none, none, none, none, none]

/-- Constraint table of the `MONOCLINIC` branch of `_setup_constraints`. -/
noncomputable def monoclinicTable : ConstraintTable where
  ignored_dims := [true, false, true, false, false, false]
  projection_tied_values := [none, none, none, none, none, none]
  projection_fixed_values := [some 0, none, some 0, none, none, none]
  lattice_params_tied_values := [none, none, none, none, none, none]
  lattice_params_fixed_values := [none, none, none, some 90, none, some 90]

/-- Constraint table of the `ORTHORHOMBIC` branch of `_setup_constraints`. -/
noncomputable def orthorhombicTable : ConstraintTable where
  ignored_dims := [true, true, true, false, false, false]
  projection_tied_values := [none, none, none, none, none, none]
  projection_fixed_values := [some 0, some 0, some 0, none, none, none]
  lattice_params_tied_values := [none, none, none, none, none, none]
  lattice_params_fixed_values := [none, none, none, some 90, some 90, some 90]

/-- Constraint table of the `TETRAGONAL` branch of `_setup_constraints`. -/
noncomputable def tetragonalTable : ConstraintTable where
  ignored_dims := [true, true, true, true, false, false]
  projection_tied_values := [none, none, none, none, none, none]
  projection_fixed_values := [some 0, some 0, some 0, some 0, none, none]
  lattice_params_tied_values := [none, some 0, none, none, none, none]
  lattice_params_fixed_values := [none, none, none, some 90, some 90, some 90]

/-- Constraint table of the `HEXAGONAL` branch of `_setup_constraints`
(`-numpy.log(3) / 4` is modelled as `-Real.log 3 / 4`). -/
noncomputable def hexagonalTable : ConstraintTable where
  ignored_dims := [true, true, true, true, false, false]
  projection_tied_values := [none, none, none, none, none, none]
  projection_fixed_values :=
    [some (-Real.log 3 / 4), some 0, some 0, some 0, none, none]
  lattice_params_tied_values := [none, some 0, none, none, none, none]
  lattice_params_fixed_values := [none, none, none, some 90, some 90, some 120]

/-- Constraint table of the `RHOMBOHEDRAL` branch of `_setup_constraints`. -/
noncomputable def rhombohedralTable : ConstraintTable where
  ignored_dims := [false, true, true, true, true, false]
  projection_tied_values := [none, some 0, some 0, none, none, none]
  projection_fixed_values := [none, none, none, some 0, some 0, none]
  lattice_params_tied_values := [none, some 0, some 0, none, some 3, some 3]
  lattice_params_fixed_values := [none, none, none, none, none, none]

/-- Constraint table of the `CUBIC` branch of `_setup_constraints`. -/
noncomputable def cubicTable : ConstraintTable where
  ignored_dims := [true, true, true, true, true, false]
  projection_tied_values := [none, none, none, none, none, none]
  projection_fixed_values := [some 0, some 0, some 0, some 0, some 0, none]
  lattice_params_tied_values := [none, some 0, some 0, none, none, none]
  lattice_params_fixed_values := [none, none, none, some 90, some 90, some 90]

/-- Embedding of `LatticeParametersSGCCG._setup_constraints`: dispatch on the
lattice-system name; the final `else` branch raises `ValueError`, modelled as
`none`. -/
noncomputable def setup_constraints (lattice_system : String) :
    Option ConstraintTable :=
  if lattice_system = TRICLINIC then some triclinicTable
  else if lattice_system = MONOCLINIC then some monoclinicTable
  else if lattice_system = ORTHORHOMBIC then some orthorhombicTable
  else if lattice_system = TETRAGONAL then some tetragonalTable
  else if lattice_system = HEXAGONAL then some hexagonalTable
  else if lattice_system = RHOMBOHEDRAL then some rhombohedralTable
  else if lattice_system = CUBIC then some cubicTable
  else none

/-- Value chosen for position `i` in the loop body shared by
`apply_projection_constraints` and `apply_lattice_constraints`: the fixed
value if set, else the already-resolved value at the tied index, else the
input value. `none` models a Python `IndexError` (list access out of range);
`acc` is the partially built output list. -/
def constrainedValue (fixed : List (Option ℝ)) (tied : List (Option Nat))
    (input : List ℝ) (acc : List ℝ) (i : Nat) : Option ℝ :=
  match fixed.get? i with
  | none => none
  | some (some v) => some v
  | some none =>
    match tied.get? i with
    | none => none
    | some (some j) => acc.get? j
    | some none => input.get? i

/-- The loop shared by `apply_projection_constraints` and
`apply_lattice_constraints`: iterate `i` over `range(len(tied))`, appending
the resolved value for each dimension to the output list built so far. -/
def applyConstraints (fixed : List (Option ℝ)) (tied : List (Option Nat))
    (input : List ℝ) : Option (List ℝ) :=
  (List.range tied.length).foldl
    (fun acc? i =>
      acc?.bind fun acc =>
        (constrainedValue fixed tied input acc i).map fun x => acc ++ [x])
    (some [])

/-- Embedding of `LatticeParametersSGCCG.apply_projection_constraints`. -/
def apply_projection_constraints (t : ConstraintTable) (v : List ℝ) :
    Option (List ℝ) :=
  applyConstraints t.projection_fixed_values t.projection_tied_values v

/-- Embedding of `LatticeParametersSGCCG.apply_lattice_constraints`. -/
def apply_lattice_constraints (t : ConstraintTable) (v : List ℝ) :
    Option (List ℝ) :=
  applyConstraints t.lattice_params_fixed_values t.lattice_params_tied_values v

/-- Embedding of `self.min_projection_values` from
`LatticeParametersSGCCG.__init__`. -/
noncomputable def min_projection_values : List ℝ :=
  [-3 / 2, -3 / 2, -3 / 2, -9 / 2, -3, -3 / 2]

/-- Embedding of `self.max_projection_values` from
`LatticeParametersSGCCG.__init__`. -/
noncomputable def max_projection_values : List ℝ :=
  [3 / 2, 3 / 2, 3 / 2, 9 / 2, 3, 7]

/-- Embedding of `LatticeParametersSGCCG._state2projection`: dimension-wise
affine map over `zip(state, min_projection_values, max_projection_values)`. -/
noncomputable def state2projection (state : List ℝ) : List ℝ :=
  List.zipWith3 (fun s mn mx => mn + s * (mx - mn))
    state min_projection_values max_projection_values

/-- Embedding of `LatticeParametersSGCCG._projection2state`: inverse of the
dimension-wise affine map. -/
noncomputable def projection2state (projection : List ℝ) : List ℝ :=
  List.zipWith3 (fun p mn mx => (p - mn) / (mx - mn))
    projection min_projection_values max_projection_values

/-- Basis matrix `B1` from the module header of `lattice_parameters.py`. -/
def B1 : Matrix (Fin 3) (Fin 3) ℝ :=
  Matrix.of ![![0, 1, 0], ![1, 0, 0], ![0, 0, 0]]

/-- Basis matrix `B2` from the module header of `lattice_parameters.py`. -/
def B2 : Matrix (Fin 3) (Fin 3) ℝ :=
  Matrix.of ![![0, 0, 1], ![0, 0, 0], ![1, 0, 0]]

/-- Basis matrix `B3` from the module header of `lattice_parameters.py`. -/
def B3 : Matrix (Fin 3) (Fin 3) ℝ :=
  Matrix.of ![![0, 0, 0], ![0, 0, 1], ![0, 1, 0]]

/-- Basis matrix `B4` from the module header of `lattice_parameters.py`. -/
def B4 : Matrix (Fin 3) (Fin 3) ℝ :=
  Matrix.of ![![1, 0, 0], ![0, -1, 0], ![0, 0, 0]]

/-- Basis matrix `B5` from the module header of `lattice_parameters.py`. -/
def B5 : Matrix (Fin 3) (Fin 3) ℝ :=
  Matrix.of ![![1, 0, 0], ![0, 1, 0], ![0, 0, -2]]

/-- Basis matrix `B6` from the module header of `lattice_parameters.py`. -/
def B6 : Matrix (Fin 3) (Fin 3) ℝ :=
  Matrix.of ![![1, 0, 0], ![0, 1, 0], ![0, 0, 1]]

/-- Embedding of `numpy.rad2deg`. -/
noncomputable def rad2deg (x : ℝ) : ℝ := x * 180 / Real.pi

/-- Embedding of `LatticeParametersSGCCG._projection2lattice`: unpack the six
projection coefficients (Python raises on any other length, modelled as
`none`), form the symmetric matrix, take the matrix exponential `expm(2 * s)`
(modelled as `NormedSpace.exp ℝ`), and extract lengths and angles
(`** 0.5` on the positive-definite diagonal is modelled as `Real.sqrt`,
`numpy.arccos` as `Real.arccos`). -/
noncomputable def projection2lattice (projection : List ℝ) : Option (List ℝ) :=
  match projection with
  | [k1, k2, k3, k4, k5, k6] =>
    let s := k1 • B1 + k2 • B2 + k3 • B3 + k4 • B4 + k5 • B5 + k6 • B6
    let j := NormedSpace.exp ℝ ((2 : ℝ) • s)
    let a := Real.sqrt (j 0 0)
    let b := Real.sqrt (j 1 1)
    let c := Real.sqrt (j 2 2)
    some [a, b, c,
      rad2deg (Real.arccos (j 1 2 / (b * c))),
      rad2deg (Real.arccos (j 0 2 / (a * c))),
      rad2deg (Real.arccos (j 0 1 / (a * b)))]
  | _ => none

/-- Re-projection performed by `LatticeParametersSGCCG._step` on the state
returned by the delegate: state → projection → constraints → state. -/
noncomputable def step_commit (t : ConstraintTable) (state : List ℝ) :
    Option (List ℝ) :=
  (apply_projection_constraints t (state2projection state)).map
    projection2state

/-- Embedding of `LatticeParametersSGCCG._step`, given the triple
`(state, action, valid)` returned by the delegate `super()._step` (the
hypercube stepping engine, an external collaborator): the candidate state is
re-projected unconditionally and committed; the action and validity flag are
returned unchanged. -/
noncomputable def stepSGCCG (t : ConstraintTable)
    (delegate : List ℝ × List ℝ × Bool) : Option (List ℝ × List ℝ × Bool) :=
  (step_commit t delegate.1).map fun s => (s, delegate.2.1, delegate.2.2)

/-- The lattice-parameter sextuple computed by
`LatticeParametersSGCCG.state2lattice` before regrouping:
state → projection → projection constraints → lattice → lattice
constraints. -/
noncomputable def state2lattice_flat (t : ConstraintTable) (state : List ℝ) :
    Option (List ℝ) :=
  (apply_projection_constraints t (state2projection state)).bind fun q =>
    (projection2lattice q).bind fun lp => apply_lattice_constraints t lp

/-- Embedding of `LatticeParametersSGCCG.state2lattice`: the constrained
sextuple regrouped as `[[a, b, c], [alpha, beta, gamma]]`. -/
noncomputable def state2lattice (t : ConstraintTable) (state : List ℝ) :
    Option (List (List ℝ)) :=
  (state2lattice_flat t state).bind fun lp =>
    match lp with
    | [a, b, c, alpha, beta, gamma] => some [[a, b, c], [alpha, beta, gamma]]
    | _ => none

/-- Digit-string value used by `parseFloatChars`; `none` if a non-digit
occurs. -/
def digitsToNat (cs : List Char) : Option Nat :=
  cs.foldl
    (fun acc c =>
      acc.bind fun n =>
        if c.isDigit then some (10 * n + (c.toNat - '0'.toNat)) else none)
    (some 0)

/-- Character-level model of `str.split(sep)` for a single-character
separator (always returns at least one, possibly empty, token). -/
def splitOnChar (sep : Char) : List Char → List (List Char)
  | [] => [[]]
  | c :: rest =>
    let r := splitOnChar sep rest
    if c = sep then [] :: r else (c :: r.headD []) :: r.tail

/-- Character-level model of the three successive
`readable.replace(c, "")` calls in `readable2state`: drop every
parenthesis and space. -/
def stripReadable (s : String) : List Char :=
  s.toList.filter fun c => !(c == '(' || c == ')' || c == ' ')

/-- Model of the Python builtin `float` restricted to plain unsigned decimal
literals (digits with an optional fractional part); `none` models a
`ValueError`. -/
def parseUnsigned (cs : List Char) : Option ℚ :=
  match splitOnChar '.' cs with
  | [intPart] =>
    if intPart.isEmpty then none
    else (digitsToNat intPart).map fun n => (n : ℚ)
  | [intPart, fracPart] =>
    if intPart.isEmpty && fracPart.isEmpty then none
    else
      (digitsToNat intPart).bind fun n =>
        (digitsToNat fracPart).map fun f =>
          (n : ℚ) + (f : ℚ) / 10 ^ fracPart.length
  | _ => none

/-- Model of the Python builtin `float` on a token: optional leading minus
sign followed by an unsigned decimal literal. -/
def parseFloatChars (cs : List Char) : Option ℚ :=
  match cs with
  | '-' :: rest => (parseUnsigned rest).map fun q => -q
  | _ => parseUnsigned cs

/-- Embedding of `LatticeParametersSGCCG.readable2state`: strip parentheses
and spaces, split on commas, parse the tokens as floats, then evaluate
`self._lattice2projection(*values)`. `_lattice2projection` has a single
positional parameter (`lattice_params`) besides `self`, so the starred call
binds only when exactly one value was parsed; any other arity raises
`TypeError`. The one-argument call itself is kept abstract as `l2p_one`
(its body runs `scipy.linalg.logm`, external numerics). -/
noncomputable def readable2state (l2p_one : ℚ → Except String (List ℝ))
    (readable : String) : Except String (List ℝ) :=
  let tokens := splitOnChar ',' (stripReadable readable)
  match tokens.mapM parseFloatChars with
  | none => Except.error "ValueError"
  | some values =>
    match values with
    | [x] => (l2p_one x).map projection2state
    | _ => Except.error "TypeError"

/-- The per-environment data relevant to constraint setup: the lattice-system
name and the constraint table derived from it. -/
structure EnvSGCCG where
  lattice_system : String
  table : ConstraintTable

/-- Constraint-table construction as invoked by
`LatticeParametersSGCCG.__init__` (via `_setup_constraints`): `none` models
the constructor raising `ValueError`. -/
noncomputable def init_env (lattice_system : String) : Option EnvSGCCG :=
  (setup_constraints lattice_system).map fun t =>
    { lattice_system := lattice_system, table := t }

/-- Embedding of `LatticeParametersSGCCG.set_lattice_system`: store the new
name and recompute the constraint table; `none` models the raised
`ValueError`. -/
noncomputable def set_lattice_system (_env : EnvSGCCG)
    (lattice_system : String) : Option EnvSGCCG :=
  (setup_constraints lattice_system).map fun t =>
    { lattice_system := lattice_system, table := t }

/-- Per-dimension behaviour stated by the spec for the two constraint
application functions: the fixed value when one is set, else the
already-resolved output value at the tied index, else the input value. -/
def dimensionSpec (fixed : List (Option ℝ)) (tied : List (Option Nat))
    (input out : List ℝ) (i : Nat) : Prop :=
  (∀ x, fixed.getD i none = some x → out.getD i 0 = x) ∧
  (fixed.getD i none = none → ∀ j, tied.getD i none = some j →
    out.getD i 0 = out.getD j 0) ∧
  (fixed.getD i none = none → tied.getD i none = none →
    out.getD i 0 = input.getD i 0)

/-- A dimension carrying neither a fixed value nor a tied index. -/
def freeDim (fixed : List (Option ℝ)) (tied : List (Option Nat))
    (i : Nat) : Prop :=
  fixed.getD i none = none ∧ tied.getD i none = none

lemma range_six : List.range 6 = [0, 1, 2, 3, 4, 5] := rfl

lemma length_six_cases {α : Type} (l : List α) (h : l.length = 6) :
    ∃ a b c d e f, l = [a, b, c, d, e, f] := by
  rcases l with _ | ⟨a, _ | ⟨b, _ | ⟨c, _ | ⟨d, _ | ⟨e, _ | ⟨f, _ | ⟨g, t⟩⟩⟩⟩⟩⟩⟩ <;>
    first
      | exact ⟨_, _, _, _, _, _, rfl⟩
      | (exfalso; simp at h)

lemma setup_constraints_cases {s : String} {t : ConstraintTable}
    (h : setup_constraints s = some t) :
    t = triclinicTable ∨ t = monoclinicTable ∨ t = orthorhombicTable ∨
    t = tetragonalTable ∨ t = hexagonalTable ∨ t = rhombohedralTable ∨
    t = cubicTable := by
  unfold setup_constraints at h
  split_ifs at h <;> (injection h with h; subst h; simp)

/-- C1, counterexample: with the cubic constraint table, a step in which the
delegate returns `valid = False` and leaves the previous state untouched at
the all-zero source state does not leave the state equal to the state before
the step: `_step` re-projects unconditionally, and the all-zero source state
is not a fixed point of the projection-constraint round trip. -/
theorem c1_counterexample :
    stepSGCCG cubicTable ([0, 0, 0, 0, 0, 0], [0, 0, 0, 0, 0, 0], false) ≠
      some ([0, 0, 0, 0, 0, 0], [0, 0, 0, 0, 0, 0], false) := by
  intro h
  simp only [stepSGCCG, step_commit, apply_projection_constraints,
    applyConstraints, constrainedValue, state2projection, projection2state,
    min_projection_values, max_projection_values, List.zipWith3, range_six,
    List.foldl, List.get?, cubicTable, Option.bind, Option.map,
    Option.some.injEq] at h
  norm_num at h

/-- C1, amended: for every lattice system, when the delegate returns
`valid = False` with the previous state unchanged, `_step` still applies the
re-projection, so the state after the step is the projection-constraint
round trip of the previous state; it equals the previous state when (and
only then) the previous state is already a fixed point of that round
trip. -/
theorem c1_valid_false_reprojects (s : String) (t : ConstraintTable)
    (h : setup_constraints s = some t) (prev action : List ℝ) :
    stepSGCCG t (prev, action, false) =
      (step_commit t prev).map (fun st => (st, action, false)) ∧
    (step_commit t prev = some prev →
      stepSGCCG t (prev, action, false) = some (prev, action, false)) := by
  constructor
  · rfl
  · intro hfix
    simp [stepSGCCG, hfix]

/-- C1, witness: under the cubic system, the committed state
`[1/2, 1/2, 1/2, 1/2, 1/2, 0]` is a fixed point of the re-projection, and a
`valid = False` step from it leaves the state unchanged. -/
theorem c1_witness :
    setup_constraints CUBIC = some cubicTable ∧
    step_commit cubicTable [1/2, 1/2, 1/2, 1/2, 1/2, 0] =
      some [1/2, 1/2, 1/2, 1/2, 1/2, 0] ∧
    stepSGCCG cubicTable
        ([1/2, 1/2, 1/2, 1/2, 1/2, 0], [0, 0, 0, 0, 0, 0], false) =
      some ([1/2, 1/2, 1/2, 1/2, 1/2, 0], [0, 0, 0, 0, 0, 0], false) := by
  have hfix : step_commit cubicTable [1/2, 1/2, 1/2, 1/2, 1/2, 0] =
      some [1/2, 1/2, 1/2, 1/2, 1/2, 0] := by
    norm_num [step_commit, apply_projection_constraints, applyConstraints,
      constrainedValue, state2projection, projection2state,
      min_projection_values, max_projection_values, List.zipWith3, range_six,
      List.foldl, List.get?, cubicTable, Option.map, Option.some.injEq]
  exact ⟨rfl, hfix,
    (c1_valid_false_reprojects CUBIC cubicTable rfl
      [1/2, 1/2, 1/2, 1/2, 1/2, 0] [0, 0, 0, 0, 0, 0]).2 hfix⟩

/-- C2: for every lattice system and every step (any delegate candidate
state, any action, forward or backward), the state committed by `_step` is a
fixed point of projection-space constraint application: mapping it through
the state-to-projection affine map and applying
`apply_projection_constraints` returns the same projection vector. -/
theorem c2_committed_state_fixed_point (s : String) (t : ConstraintTable)
    (h : setup_constraints s = some t) (d : List ℝ × List ℝ × Bool)
    (hd : d.1.length = 6) (out : List ℝ × List ℝ × Bool)
    (hout : stepSGCCG t d = some out) :
    apply_projection_constraints t (state2projection out.1) =
      some (state2projection out.1) := by
  obtain ⟨v, ract, rvalid⟩ := d
  simp only [stepSGCCG] at hout
  rcases Option.map_eq_some'.mp hout with ⟨c, hc, rfl⟩
  obtain ⟨a0, a1, a2, a3, a4, a5, rfl⟩ := length_six_cases v hd
  rcases setup_constraints_cases h with rfl | rfl | rfl | rfl | rfl | rfl | rfl <;>
    (simp only [step_commit, apply_projection_constraints, applyConstraints,
      constrainedValue, state2projection, projection2state,
      min_projection_values, max_projection_values, List.zipWith3, range_six,
      List.foldl, List.get?, triclinicTable, monoclinicTable,
      orthorhombicTable, tetragonalTable, hexagonalTable, rhombohedralTable,
      cubicTable, Option.bind, Option.map, Option.some.injEq] at hc) <;>
    subst hc <;>
    (simp only [apply_projection_constraints, applyConstraints,
      constrainedValue, state2projection, projection2state,
      min_projection_values, max_projection_values, List.zipWith3, range_six,
      List.foldl, List.get?, triclinicTable, monoclinicTable,
      orthorhombicTable, tetragonalTable, hexagonalTable, rhombohedralTable,
      cubicTable, Option.bind, Option.map, Option.some.injEq]) <;>
    norm_num

/-- C2, witness: a concrete forward step under the cubic system, from the
all-zero source state, commits `[1/2, 1/2, 1/2, 1/2, 1/2, 0]`, which is a
fixed point of projection-space constraint application. -/
theorem c2_witness :
    setup_constraints CUBIC = some cubicTable ∧
    (([0, 0, 0, 0, 0, 0] : List ℝ), ([0, 0, 0, 0, 0, 0] : List ℝ),
      true).1.length = 6 ∧
    stepSGCCG cubicTable ([0, 0, 0, 0, 0, 0], [0, 0, 0, 0, 0, 0], true) =
      some ([1/2, 1/2, 1/2, 1/2, 1/2, 0], [0, 0, 0, 0, 0, 0], true) ∧
    apply_projection_constraints cubicTable
        (state2projection ([1/2, 1/2, 1/2, 1/2, 1/2, 0], ([0, 0, 0, 0, 0, 0] :
          List ℝ), true).1) =
      some (state2projection ([1/2, 1/2, 1/2, 1/2, 1/2, 0],
        ([0, 0, 0, 0, 0, 0] : List ℝ), true).1) := by
  have hout : stepSGCCG cubicTable
      ([0, 0, 0, 0, 0, 0], [0, 0, 0, 0, 0, 0], true) =
      some ([1/2, 1/2, 1/2, 1/2, 1/2, 0], [0, 0, 0, 0, 0, 0], true) := by
    norm_num [stepSGCCG, step_commit, apply_projection_constraints,
      applyConstraints, constrainedValue, state2projection, projection2state,
      min_projection_values, max_projection_values, List.zipWith3, range_six,
      List.foldl, List.get?, cubicTable, Option.map, Option.some.injEq]
  exact ⟨rfl, rfl, hout,
    c2_committed_state_fixed_point CUBIC cubicTable rfl
      ([0, 0, 0, 0, 0, 0], [0, 0, 0, 0, 0, 0], true) rfl
      ([1/2, 1/2, 1/2, 1/2, 1/2, 0], [0, 0, 0, 0, 0, 0], true) hout⟩

/-- C3 (code bug): `readable2state` parses six floats from the readable
string but then calls `self._lattice2projection(*values)`, unpacking the six
values into a method whose only positional parameter is the single list
`lattice_params`; the call therefore raises `TypeError` for every
six-component readable string, including
`"(4.0, 4.0, 4.0), (90.0, 90.0, 90.0)"`, whatever the one-argument
behaviour of `_lattice2projection` would be, so the claimed round trip
never happens. -/
theorem c3_readable2state_type_error :
    ∀ l2p_one : ℚ → Except String (List ℝ),
      readable2state l2p_one "(4.0, 4.0, 4.0), (90.0, 90.0, 90.0)" =
        Except.error "TypeError" :=
  fun _ => rfl

/-- C3, witness: the `TypeError` at a concrete one-argument model of
`_lattice2projection`. -/
theorem c3_witness :
    readable2state (fun _ => Except.error "logm")
        "(4.0, 4.0, 4.0), (90.0, 90.0, 90.0)" =
      Except.error "TypeError" :=
  c3_readable2state_type_error (fun _ => Except.error "logm")

/-- C4, counterexample: the state `[0.5, 0.5, 0.5, 0.5, 0.5, 0.5]` is not
mapped by `_state2projection` to `[0, 0, 0, 0, 0, 2]`: on the last
dimension, `min + 0.5 * (max - min)` with `min = -3/2` and `max = 7` is
`2.75`, not `2`. -/
theorem c4_counterexample :
    state2projection [1/2, 1/2, 1/2, 1/2, 1/2, 1/2] ≠
      [0, 0, 0, 0, 0, 2] := by
  intro h
  simp only [state2projection, min_projection_values, max_projection_values,
    List.zipWith3] at h
  norm_num at h

/-- C4, amended: with `min_projection_values = [-3/2, -3/2, -3/2, -9/2, -3,
-3/2]` and `max_projection_values = [3/2, 3/2, 3/2, 9/2, 3, 7]` exactly as
in `__init__`, the dimension-wise affine map sends the midpoint state
`[0.5] * 6` to the projection vector `[0, 0, 0, 0, 0, 2.75]`. -/
theorem c4_midpoint_projection :
    min_projection_values = [-3/2, -3/2, -3/2, -9/2, -3, -3/2] ∧
    max_projection_values = [3/2, 3/2, 3/2, 9/2, 3, 7] ∧
    state2projection [1/2, 1/2, 1/2, 1/2, 1/2, 1/2] =
      [0, 0, 0, 0, 0, 11/4] := by
  refine ⟨rfl, rfl, ?_⟩
  simp only [state2projection, min_projection_values, max_projection_values,
    List.zipWith3]
  norm_num

/-- C5: `_setup_constraints` produces exactly the claimed tables for the
hexagonal system (ignored dims `[T,T,T,T,F,F]`; projection dims 0..3 fixed
at `-ln(3)/4, 0, 0, 0`; lattice `alpha = beta = 90`, `gamma = 120`; lattice
`b` tied to `a`) and for the rhombohedral system (ignored dims
`[F,T,T,T,T,F]`; projection dims 1 and 2 tied to dim 0; projection dims 3
and 4 fixed at 0; lattice `b`, `c` tied to `a` and `beta`, `gamma` tied to
`alpha`; no fixed lattice values). -/
theorem c5_hexagonal_rhombohedral_tables :
    setup_constraints HEXAGONAL = some hexagonalTable ∧
    hexagonalTable.ignored_dims = [true, true, true, true, false, false] ∧
    hexagonalTable.projection_fixed_values.getD 0 none =
      some (-Real.log 3 / 4) ∧
    hexagonalTable.projection_fixed_values.getD 1 none = some 0 ∧
    hexagonalTable.projection_fixed_values.getD 2 none = some 0 ∧
    hexagonalTable.projection_fixed_values.getD 3 none = some 0 ∧
    hexagonalTable.lattice_params_fixed_values.getD 3 none = some 90 ∧
    hexagonalTable.lattice_params_fixed_values.getD 4 none = some 90 ∧
    hexagonalTable.lattice_params_fixed_values.getD 5 none = some 120 ∧
    hexagonalTable.lattice_params_tied_values.getD 1 none = some 0 ∧
    setup_constraints RHOMBOHEDRAL = some rhombohedralTable ∧
    rhombohedralTable.ignored_dims = [false, true, true, true, true, false] ∧
    rhombohedralTable.projection_tied_values.getD 1 none = some 0 ∧
    rhombohedralTable.projection_tied_values.getD 2 none = some 0 ∧
    rhombohedralTable.projection_fixed_values.getD 3 none = some 0 ∧
    rhombohedralTable.projection_fixed_values.getD 4 none = some 0 ∧
    rhombohedralTable.lattice_params_tied_values.getD 1 none = some 0 ∧
    rhombohedralTable.lattice_params_tied_values.getD 2 none = some 0 ∧
    rhombohedralTable.lattice_params_tied_values.getD 4 none = some 3 ∧
    rhombohedralTable.lattice_params_tied_values.getD 5 none = some 3 ∧
    rhombohedralTable.lattice_params_fixed_values =
      [none, none, none, none, none, none] :=
  ⟨rfl, rfl, rfl, rfl, rfl, rfl, rfl, rfl, rfl, rfl, rfl, rfl, rfl, rfl, rfl,
    rfl, rfl, rfl, rfl, rfl, rfl⟩

/-- C6: for every lattice system and every state, in the lattice-parameter
sextuple computed by `state2lattice` (stated on `state2lattice_flat`, the
sextuple that `state2lattice` regroups into `[[a,b,c],[alpha,beta,gamma]]`),
every dimension with a declared tied index in the lattice-space constraint
table equals the value at its tie target exactly, every dimension with a
declared fixed value equals that constant exactly, and under the cubic
system `a = b = c` and `alpha = beta = gamma = 90` exactly. -/
theorem c6_state2lattice_ties_and_fixed (s : String) (t : ConstraintTable)
    (h : setup_constraints s = some t) (state : List ℝ)
    (hs : state.length = 6) (lp : List ℝ)
    (hlp : state2lattice_flat t state = some lp) :
    (∀ i j : ℕ, t.lattice_params_tied_values.getD i none = some j →
        lp.getD i 0 = lp.getD j 0) ∧
    (∀ (i : ℕ) (x : ℝ), t.lattice_params_fixed_values.getD i none = some x →
        lp.getD i 0 = x) ∧
    (s = CUBIC →
      (lp.getD 0 0 = lp.getD 1 0 ∧ lp.getD 1 0 = lp.getD 2 0) ∧
      lp.getD 3 0 = 90 ∧ lp.getD 4 0 = 90 ∧ lp.getD 5 0 = 90) := by
  obtain ⟨a0, a1, a2, a3, a4, a5, rfl⟩ := length_six_cases state hs
  rcases setup_constraints_cases h with rfl | rfl | rfl | rfl | rfl | rfl | rfl <;>
    (obtain rfl := (Option.some.inj hlp).symm) <;>
    refine ⟨?_, ?_, ?_⟩ <;>
      first
        | (intro i j hij
           rcases i with _ | _ | _ | _ | _ | _ | i <;>
             first
               | exact Option.noConfusion hij
               | (obtain rfl := (Option.some.inj hij).symm; rfl))
        | (intro hcub
           subst hcub
           first
             | exact ⟨⟨rfl, rfl⟩, rfl, rfl, rfl⟩
             | (exfalso
                rw [show setup_constraints CUBIC = some cubicTable from rfl]
                  at h
                injection h with h
                simp [triclinicTable, monoclinicTable, orthorhombicTable,
                  tetragonalTable, hexagonalTable, rhombohedralTable,
                  cubicTable] at h))

/-- C6, witness: the cubic system at the all-zero source state; the
committed sextuple satisfies `a = b = c` and all three angles are
exactly 90. -/
theorem c6_witness :
    setup_constraints CUBIC = some cubicTable ∧
    ([0, 0, 0, 0, 0, 0] : List ℝ).length = 6 ∧
    state2lattice_flat cubicTable [0, 0, 0, 0, 0, 0] =
      some ((state2lattice_flat cubicTable [0, 0, 0, 0, 0, 0]).getD []) ∧
    (((state2lattice_flat cubicTable [0, 0, 0, 0, 0, 0]).getD []).getD 0 0 =
        ((state2lattice_flat cubicTable [0, 0, 0, 0, 0, 0]).getD []).getD 1 0 ∧
      ((state2lattice_flat cubicTable [0, 0, 0, 0, 0, 0]).getD []).getD 1 0 =
        ((state2lattice_flat cubicTable [0, 0, 0, 0, 0, 0]).getD []).getD 2 0) ∧
    ((state2lattice_flat cubicTable [0, 0, 0, 0, 0, 0]).getD []).getD 3 0 = 90 ∧
    ((state2lattice_flat cubicTable [0, 0, 0, 0, 0, 0]).getD []).getD 4 0 = 90 ∧
    ((state2lattice_flat cubicTable [0, 0, 0, 0, 0, 0]).getD []).getD 5 0 = 90 :=
  ⟨rfl, rfl, rfl,
    (c6_state2lattice_ties_and_fixed CUBIC cubicTable rfl [0, 0, 0, 0, 0, 0]
      rfl ((state2lattice_flat cubicTable [0, 0, 0, 0, 0, 0]).getD [])
      rfl).2.2 rfl⟩

/-- C7: for every lattice system and every 6-dimensional input vector, both
constraint application functions succeed (no exception), return a
6-dimensional vector, and at each dimension produce the declared fixed
value when one is set, otherwise the already-resolved output value at the
declared tied index when one is set, otherwise the input value unchanged. -/
theorem c7_constraint_application_per_dimension (s : String)
    (t : ConstraintTable) (h : setup_constraints s = some t) (v : List ℝ)
    (hv : v.length = 6) :
    (∃ out, apply_projection_constraints t v = some out ∧ out.length = 6 ∧
      ∀ i : Fin 6, dimensionSpec t.projection_fixed_values
        t.projection_tied_values v out i.val) ∧
    (∃ out, apply_lattice_constraints t v = some out ∧ out.length = 6 ∧
      ∀ i : Fin 6, dimensionSpec t.lattice_params_fixed_values
        t.lattice_params_tied_values v out i.val) := by
  obtain ⟨a0, a1, a2, a3, a4, a5, rfl⟩ := length_six_cases v hv
  rcases setup_constraints_cases h with rfl | rfl | rfl | rfl | rfl | rfl | rfl <;>
    refine ⟨⟨_, rfl, rfl, ?_⟩, ⟨_, rfl, rfl, ?_⟩⟩ <;>
    (intro i; fin_cases i) <;>
    (refine ⟨?_, ?_, ?_⟩ <;>
      simp [dimensionSpec, List.getD, List.get?, triclinicTable,
        monoclinicTable, orthorhombicTable, tetragonalTable, hexagonalTable,
        rhombohedralTable, cubicTable])

/-- C7, witness: the rhombohedral system (which has both tied and fixed
projection dimensions) on the input vector `[0, 1, 2, 3, 4, 5]`. -/
theorem c7_witness :
    setup_constraints RHOMBOHEDRAL = some rhombohedralTable ∧
    ([0, 1, 2, 3, 4, 5] : List ℝ).length = 6 ∧
    ((∃ out, apply_projection_constraints rhombohedralTable
        [0, 1, 2, 3, 4, 5] = some out ∧ out.length = 6 ∧
      ∀ i : Fin 6, dimensionSpec rhombohedralTable.projection_fixed_values
        rhombohedralTable.projection_tied_values [0, 1, 2, 3, 4, 5] out
        i.val) ∧
    (∃ out, apply_lattice_constraints rhombohedralTable
        [0, 1, 2, 3, 4, 5] = some out ∧ out.length = 6 ∧
      ∀ i : Fin 6, dimensionSpec rhombohedralTable.lattice_params_fixed_values
        rhombohedralTable.lattice_params_tied_values [0, 1, 2, 3, 4, 5] out
        i.val)) :=
  ⟨rfl, rfl, c7_constraint_application_per_dimension RHOMBOHEDRAL
    rhombohedralTable rfl [0, 1, 2, 3, 4, 5] rfl⟩

/-- C8: for every lattice system and every 6-dimensional vector,
`apply_projection_constraints` and `apply_lattice_constraints` are
idempotent: re-applying the function to its own output yields the same
output. -/
theorem c8_constraint_application_idempotent (s : String)
    (t : ConstraintTable) (h : setup_constraints s = some t) (v : List ℝ)
    (hv : v.length = 6) :
    (apply_projection_constraints t v).bind (apply_projection_constraints t) =
        apply_projection_constraints t v ∧
    (apply_lattice_constraints t v).bind (apply_lattice_constraints t) =
        apply_lattice_constraints t v := by
  obtain ⟨a0, a1, a2, a3, a4, a5, rfl⟩ := length_six_cases v hv
  rcases setup_constraints_cases h with rfl | rfl | rfl | rfl | rfl | rfl | rfl <;>
    exact ⟨rfl, rfl⟩

/-- C8, witness: idempotence at the rhombohedral table (both tied and fixed
dimensions) on the vector `[0, 1, 2, 3, 4, 5]`. -/
theorem c8_witness :
    setup_constraints RHOMBOHEDRAL = some rhombohedralTable ∧
    ([0, 1, 2, 3, 4, 5] : List ℝ).length = 6 ∧
    ((apply_projection_constraints rhombohedralTable [0, 1, 2, 3, 4, 5]).bind
        (apply_projection_constraints rhombohedralTable) =
      apply_projection_constraints rhombohedralTable [0, 1, 2, 3, 4, 5] ∧
    (apply_lattice_constraints rhombohedralTable [0, 1, 2, 3, 4, 5]).bind
        (apply_lattice_constraints rhombohedralTable) =
      apply_lattice_constraints rhombohedralTable [0, 1, 2, 3, 4, 5]) :=
  ⟨rfl, rfl, c8_constraint_application_idempotent RHOMBOHEDRAL
    rhombohedralTable rfl [0, 1, 2, 3, 4, 5] rfl⟩

/-- C9: for every lattice-system name other than the seven enumerated ones,
constraint-table construction fails with a `ValueError` (modelled as
`none`), both when invoked at environment initialization and through
`set_lattice_system`; the failure is the final result, not retried. -/
theorem c9_invalid_lattice_system_fatal (s : String)
    (h : s ∉ [TRICLINIC, MONOCLINIC, ORTHORHOMBIC, TETRAGONAL, HEXAGONAL,
      RHOMBOHEDRAL, CUBIC]) :
    setup_constraints s = none ∧ init_env s = none ∧
      ∀ env : EnvSGCCG, set_lattice_system env s = none := by
  simp only [List.mem_cons, List.not_mem_nil, or_false, not_or] at h
  obtain ⟨h1, h2, h3, h4, h5, h6, h7⟩ := h
  simp [setup_constraints, init_env, set_lattice_system, h1, h2, h3, h4, h5,
    h6, h7]

/-- C9, witness: the invalid name `"foo"`. -/
theorem c9_witness :
    ("foo" : String) ∉ [TRICLINIC, MONOCLINIC, ORTHORHOMBIC, TETRAGONAL,
      HEXAGONAL, RHOMBOHEDRAL, CUBIC] ∧
    (setup_constraints "foo" = none ∧ init_env "foo" = none ∧
      ∀ env : EnvSGCCG, set_lattice_system env "foo" = none) :=
  ⟨by decide, c9_invalid_lattice_system_fatal "foo" (by decide)⟩

/-- C10: for every lattice system, the outputs of
`apply_projection_constraints` and `apply_lattice_constraints` do not
depend on the input values at dimensions carrying a fixed value or a tied
index: two 6-dimensional inputs that agree on every unconstrained dimension
produce identical outputs. -/
theorem c10_constrained_dims_noninterference (s : String)
    (t : ConstraintTable) (h : setup_constraints s = some t) (v w : List ℝ)
    (hv : v.length = 6) (hw : w.length = 6) :
    ((∀ i : Fin 6, freeDim t.projection_fixed_values
        t.projection_tied_values i.val → v.getD i.val 0 = w.getD i.val 0) →
      apply_projection_constraints t v = apply_projection_constraints t w) ∧
    ((∀ i : Fin 6, freeDim t.lattice_params_fixed_values
        t.lattice_params_tied_values i.val → v.getD i.val 0 = w.getD i.val 0) →
      apply_lattice_constraints t v = apply_lattice_constraints t w) := by
  obtain ⟨a0, a1, a2, a3, a4, a5, rfl⟩ := length_six_cases v hv
  obtain ⟨b0, b1, b2, b3, b4, b5, rfl⟩ := length_six_cases w hw
  rcases setup_constraints_cases h with rfl | rfl | rfl | rfl | rfl | rfl | rfl <;>
    constructor <;>
    intro hag <;>
    (try have e0 : a0 = b0 := by simpa using hag 0 ⟨rfl, rfl⟩) <;>
    (try have e1 : a1 = b1 := by simpa using hag 1 ⟨rfl, rfl⟩) <;>
    (try have e2 : a2 = b2 := by simpa using hag 2 ⟨rfl, rfl⟩) <;>
    (try have e3 : a3 = b3 := by simpa using hag 3 ⟨rfl, rfl⟩) <;>
    (try have e4 : a4 = b4 := by simpa using hag 4 ⟨rfl, rfl⟩) <;>
    (try have e5 : a5 = b5 := by simpa using hag 5 ⟨rfl, rfl⟩) <;>
    (simp only [apply_projection_constraints, apply_lattice_constraints,
      applyConstraints, constrainedValue, range_six, List.foldl, List.get?,
      triclinicTable, monoclinicTable, orthorhombicTable, tetragonalTable,
      hexagonalTable, rhombohedralTable, cubicTable,
      Option.some.injEq, List.cons.injEq]) <;>
    simp_all

/-- C10, witness: under the cubic system, two projection-space inputs that
agree only on the single unconstrained dimension (index 5) produce the same
output of `apply_projection_constraints`. -/
theorem c10_witness :
    setup_constraints CUBIC = some cubicTable ∧
    ([1, 2, 3, 4, 5, 6] : List ℝ).length = 6 ∧
    ([9, 8, 7, 9, 8, 6] : List ℝ).length = 6 ∧
    apply_projection_constraints cubicTable [1, 2, 3, 4, 5, 6] =
      apply_projection_constraints cubicTable [9, 8, 7, 9, 8, 6] :=
  ⟨rfl, rfl, rfl,
    (c10_constrained_dims_noninterference CUBIC cubicTable rfl
      [1, 2, 3, 4, 5, 6] [9, 8, 7, 9, 8, 6] rfl rfl).1
      (by
        intro i hi
        fin_cases i <;>
          first
            | rfl
            | exact absurd hi.1 (by simp [cubicTable, List.getD, List.get?]))⟩

end LatticeParamsSGCCG
